import Mathlib

set_option maxRecDepth 8000

/-!
Shallow embedding of the news-instagram-mcp core, translated from the
repository sources: the article/post store (src/database/db_manager.py,
src/database/models.py), the slot-allocation scheduler
(src/publishers/scheduler.py), the authenticated publisher
(src/publishers/instagram_publisher.py, src/auth/instagram_auth_manager.py)
and the extraction cascade (src/scrapers/universal_scraper.py,
src/scrapers/globalnews_scraper.py).

Machine conventions: datetimes are modelled as `Int` minutes; Python's
`datetime.date()` becomes flooring division by 1440; float comparisons such
as `alpha_chars < len(text) * 0.6` are modelled by the exact rational
inequality (`10 * alpha < 6 * len`).  Network and filesystem effects are
oracles carried in an environment record, and stateful ORM sessions become
explicit list-of-rows state passing in which only `session.commit()`
publishes buffered mutations.
-/

namespace NewsInstagram

/-- Boolean prefix test on character lists. -/
def charsPrefix : List Char → List Char → Bool
  | [], _ => true
  | _ :: _, [] => false
  | a :: as, b :: bs => a == b && charsPrefix as bs

/-- Boolean infix test on character lists. -/
def charsInfix (needle : List Char) : List Char → Bool
  | [] => charsPrefix needle []
  | c :: rest => charsPrefix needle (c :: rest) || charsInfix needle rest

/-- Python `needle in hay` on strings: substring containment. -/
def strContains (hay needle : String) : Bool :=
  charsInfix needle.toList hay.toList

/-- Python `s.lower()` (over the ASCII range the sources use). -/
def strToLower (s : String) : String :=
  String.mk (s.toList.map Char.toLower)

/-- Python `s.startswith(pre)`. -/
def strStartsWith (s pre : String) : Bool :=
  charsPrefix pre.toList s.toList

/-- Python `len(s.strip()) == 0`: nothing but whitespace. -/
def stripEmpty (s : String) : Bool :=
  s.toList.all Char.isWhitespace

/-- Count the maximal non-whitespace runs of a character list. -/
def countWords : List Char → Bool → Nat
  | [], _ => 0
  | c :: rest, inWord =>
    if c.isWhitespace then countWords rest false
    else (if inWord then 0 else 1) + countWords rest true

/-- Python `len(s.split())`: number of maximal non-whitespace runs. -/
def wordCount (s : String) : Nat :=
  countWords s.toList false

/-- Python `sum(c.isalpha() for c in text)`. -/
def alphaCount (s : String) : Nat :=
  (s.toList.filter Char.isAlpha).length

/-- Truthiness of an optional string column (Python `if x:`). -/
def optTruthy : Option String → Bool
  | none => false
  | some s => s ≠ ""

/-! ## Data model — src/database/models.py -/

/-- `ArticleStatus` enum from models.py. -/
inductive ArticleStatus
  | scraped | processed | published | failed | skipped
deriving DecidableEq, Repr

/-- `PostStatus` enum from models.py. -/
inductive PostStatus
  | draft | scheduled | published | failed
deriving DecidableEq, Repr

/-- Row of the `news_articles` table (fields used by the core paths). -/
structure NewsArticle where
  id : Nat
  url : String
  source : String
  headline : String
  content : String
  summary : Option String := none
  author : Option String := none
  category : Option String := none
  image_url : Option String := none
  image_path : Option String := none
  scraped_date : Int := 0
  status : ArticleStatus := ArticleStatus.scraped
  processing_notes : Option String := none
deriving DecidableEq, Repr

/-- Row of the `instagram_posts` table (fields used by the core paths). -/
structure InstagramPost where
  id : Nat
  article_id : Nat
  caption : String
  hashtags : Option (List String) := none
  image_path : String := ""
  template_used : Option String := none
  scheduled_time : Option Int := none
  published_time : Option Int := none
  instagram_id : Option String := none
  instagram_url : Option String := none
  status : PostStatus := PostStatus.draft
  engagement_stats : Option (List (String × Nat)) := none
  error_message : Option String := none
deriving DecidableEq, Repr

/-! ## Store operations — src/database/db_manager.py

Each manager method opens a session, queries rows, mutates the matched ORM
object and commits; we pass the table (a list of rows) explicitly, and a
failed lookup leaves it untouched.  `filter_by(...).first()` is `List.find?`
on the row list. -/

/-- Replace the first row matching `pid` by `f` applied to it (the ORM
mutation of the object returned by `.first()`, made visible at commit). -/
def updateFirstPost (db : List InstagramPost) (pid : Nat)
    (f : InstagramPost → InstagramPost) : List InstagramPost :=
  match db with
  | [] => []
  | p :: rest =>
    if p.id == pid then f p :: rest else p :: updateFirstPost rest pid f

/-- Same replacement scheme for the articles table. -/
def updateFirstArticle (db : List NewsArticle) (aid : Nat)
    (f : NewsArticle → NewsArticle) : List NewsArticle :=
  match db with
  | [] => []
  | a :: rest =>
    if a.id == aid then f a :: rest else a :: updateFirstArticle rest aid f

/-- The keyword arguments `update_post_status` forwards via `setattr`
(callers pass `scheduled_time`, `error_message` or `engagement_stats`). -/
structure PostKwargs where
  scheduled_time : Option Int := none
  error_message : Option String := none
  engagement_stats : Option (List (String × Nat)) := none
deriving DecidableEq, Repr

/-- Apply the forwarded keyword arguments to a post row. -/
def applyKwargs (p : InstagramPost) (kw : PostKwargs) : InstagramPost :=
  let p := match kw.scheduled_time with
    | some t => { p with scheduled_time := some t }
    | none => p
  let p := match kw.error_message with
    | some e => { p with error_message := some e }
    | none => p
  match kw.engagement_stats with
  | some s => { p with engagement_stats := some s }
  | none => p

/-- `DatabaseManager.update_post_status` (db_manager.py lines 147-169):
find the post by id; if absent return False, else set `status` to the
requested value, apply the keyword fields, commit and return True. -/
def update_post_status (db : List InstagramPost) (pid : Nat)
    (st : PostStatus) (kw : PostKwargs) : Bool × List InstagramPost :=
  match db.find? (fun p => p.id == pid) with
  | none => (false, db)
  | some _ =>
    (true, updateFirstPost db pid (fun p => applyKwargs { p with status := st } kw))

/-- `DatabaseManager.update_article_status` (db_manager.py lines 86-105):
find the article by id; if absent return False, else set the status, set
`processing_notes` when `notes` is truthy, commit and return True. -/
def update_article_status (db : List NewsArticle) (aid : Nat)
    (st : ArticleStatus) (notes : Option String) : Bool × List NewsArticle :=
  match db.find? (fun a => a.id == aid) with
  | none => (false, db)
  | some _ =>
    (true, updateFirstArticle db aid (fun a =>
      let a := { a with status := st }
      if optTruthy notes then { a with processing_notes := notes } else a))

/-- Payload of `save_article` (the `article_data` dict). -/
structure ArticleData where
  url : String
  source : String
  headline : String
  content : String
  category : Option String := none
  image_url : Option String := none
deriving DecidableEq, Repr

/-- Fresh autoincrement primary key for an insert. -/
def freshArticleId (db : List NewsArticle) : Nat :=
  (db.map (fun a => a.id)).foldr max 0 + 1

/-- `NewsArticle(**article_data)` with column defaults from models.py. -/
def ArticleData.toRow (d : ArticleData) (id : Nat) : NewsArticle :=
  { id := id, url := d.url, source := d.source, headline := d.headline,
    content := d.content, category := d.category, image_url := d.image_url }

/-- `DatabaseManager.save_article` (db_manager.py lines 38-59): if a row
with the same url exists return it unchanged, else insert a new row with a
fresh id and return it. -/
def save_article (db : List NewsArticle) (d : ArticleData) :
    Option NewsArticle × List NewsArticle :=
  match db.find? (fun a => a.url == d.url) with
  | some existing => (some existing, db)
  | none =>
    let a := d.toRow (freshArticleId db)
    (some a, db ++ [a])

/-- Number of stored articles carrying a given url. -/
def urlCount (db : List NewsArticle) (url : String) : Nat :=
  (db.filter (fun a => a.url == url)).length

/-! ## Scheduler — src/publishers/scheduler.py

Datetimes are `Int` minutes since an arbitrary epoch midnight, so
`t / 1440` is Python's `.date()`, and `now.replace(hour=h, minute=m,
second=0, microsecond=0)` is `(now / 1440) * 1440 + 60*h + m`. -/

/-- The `posting` section of the Instagram config, with the `.get`
defaults used by scheduler.py (preferred times as hour/minute pairs). -/
structure PostingConfig where
  preferred_times : List (Nat × Nat) := [(9, 0), (12, 0), (15, 0), (18, 0), (21, 0)]
  min_interval_hours : Nat := 3
  max_posts_per_day : Nat := 5
deriving DecidableEq, Repr

/-- `Scheduler._get_last_post_time`: the maximum `published_time` among
Published posts (`order_by(published_time.desc()).first()`), None when no
Published post carries a timestamp. -/
def _get_last_post_time (db : List InstagramPost) : Option Int :=
  (db.filterMap (fun p =>
      if p.status == PostStatus.published then p.published_time else none)).foldl
    (fun acc t => match acc with
      | none => some t
      | some m => some (max m t)) none

/-- Published posts whose `published_time` falls on calendar day `day`. -/
def publishedCountOn (db : List InstagramPost) (day : Int) : Nat :=
  (db.filter (fun p =>
    p.status == PostStatus.published &&
    match p.published_time with
    | some pt => decide (day * 1440 ≤ pt ∧ pt < (day + 1) * 1440)
    | none => false)).length

/-- `Scheduler._exceeds_daily_limit` (scheduler.py lines 126-147):
`post_count >= max_posts_per_day` for the given date. -/
def _exceeds_daily_limit (cfg : PostingConfig) (db : List InstagramPost)
    (day : Int) : Bool :=
  decide (cfg.max_posts_per_day ≤ publishedCountOn db day)

/-- The interval test shared by both search loops: pass when there is no
last Published post, or the candidate is at least `min_interval_hours`
after it (`time_diff < min_interval_hours` ⇒ skip). -/
def intervalOk (cfg : PostingConfig) (db : List InstagramPost) (t : Int) : Bool :=
  match _get_last_post_time db with
  | none => true
  | some lp => decide ((cfg.min_interval_hours : Int) * 60 ≤ t - lp)

/-- Candidate slot built from a preferred time-of-day: today's occurrence,
pushed to tomorrow when it has already passed (`if next_time <= now`). -/
def preferredCandidate (now : Int) (hm : Nat × Nat) : Int :=
  let t := (now / 1440) * 1440 + ((hm.1 * 60 + hm.2 : Nat) : Int)
  if t ≤ now then t + 1440 else t

/-- The body of the preferred-times loop of `get_next_posting_time`
(scheduler.py lines 93-101): the candidate passes the interval check
(`continue` otherwise) and then the daily cap. -/
def preferredSlotOk (cfg : PostingConfig) (db : List InstagramPost)
    (now : Int) (hm : Nat × Nat) : Bool :=
  intervalOk cfg db (preferredCandidate now hm) &&
  !_exceeds_daily_limit cfg db (preferredCandidate now hm / 1440)

/-- The preferred-times loop of `Scheduler.get_next_posting_time`
(scheduler.py lines 85-101): first preferred candidate passing the
interval check and the daily cap. -/
def findPreferred (cfg : PostingConfig) (db : List InstagramPost)
    (now : Int) : Option Int :=
  cfg.preferred_times.findSome? (fun hm =>
    if preferredSlotOk cfg db now hm then some (preferredCandidate now hm)
    else none)

/-- The body of the hourly loop of `_find_next_available_slot`
(scheduler.py lines 159-164): the candidate's day is under the cap and
the interval from the last Published post suffices. -/
def hourSlotOk (cfg : PostingConfig) (db : List InstagramPost) (t : Int) : Bool :=
  !_exceeds_daily_limit cfg db (t / 1440) && intervalOk cfg db t

/-- The bounded hourly loop of `Scheduler._find_next_available_slot`
(scheduler.py lines 155-166): scan `fuel` hourly candidates from `cur`. -/
def findHourly (cfg : PostingConfig) (db : List InstagramPost) :
    Nat → Int → Option Int
  | 0, _ => none
  | fuel + 1, cur =>
    if hourSlotOk cfg db cur then some cur
    else findHourly cfg db fuel (cur + 60)

/-- `Scheduler._find_next_available_slot` (scheduler.py lines 149-173):
hourly scan over 7×24 candidates, else fall back to 24 hours ahead. -/
def _find_next_available_slot (cfg : PostingConfig) (db : List InstagramPost)
    (start_time : Int) : Int :=
  match findHourly cfg db (7 * 24) start_time with
  | some t => t
  | none => start_time + 1440

/-- `Scheduler.get_next_posting_time` (scheduler.py lines 72-109):
preferred-times loop first, then the bounded hourly search. -/
def get_next_posting_time (cfg : PostingConfig) (db : List InstagramPost)
    (now : Int) : Int :=
  match findPreferred cfg db now with
  | some t => t
  | none => _find_next_available_slot cfg db now

/-- `Scheduler.schedule_post` (scheduler.py lines 175-197): compute a slot
when none is given, then store status Scheduled with the slot time. -/
def schedule_post (cfg : PostingConfig) (db : List InstagramPost)
    (pid : Nat) (schedule_time : Option Int) (now : Int) :
    Bool × List InstagramPost :=
  let t := match schedule_time with
    | some t => t
    | none => get_next_posting_time cfg db now
  update_post_status db pid PostStatus.scheduled { scheduled_time := some t }

/-- `Scheduler._should_auto_post` (scheduler.py lines 286-310). -/
def auto_post_categories : List String := ["breaking", "politics", "economy"]

/-- Urgency keywords checked against headline+content. -/
def breaking_keywords : List String := ["breaking", "urgent", "alert", "developing"]

/-- `Scheduler._should_auto_post` (scheduler.py lines 286-310): allow-listed
category, else urgency keyword in lowercased headline+content, else long
body (> 200 words) with an image URL. -/
def _should_auto_post (a : NewsArticle) : Bool :=
  if (match a.category with
      | some c => auto_post_categories.contains c
      | none => false) then
    true
  else
    let content_text := strToLower (a.headline ++ " " ++ a.content)
    if breaking_keywords.any (fun k => strContains content_text k) then
      true
    else if decide (200 < wordCount a.content) && optTruthy a.image_url then
      true
    else
      false

/-! ## Authenticated publisher — src/publishers/instagram_publisher.py

External effects (filesystem, PIL, the Instagram client) are oracles in an
environment record; `publish_post` additionally returns the ordered trace
of the steps it performed, so that "validation runs before upload" is a
statement about traces. -/

/-- Observable steps of `publish_post`, in execution order. -/
inductive PubStep
  | queryPost | validate | prepareMedia | upload
deriving DecidableEq, Repr

/-- Oracles of the publisher: client availability, the caption limit from
config, file existence, PIL image metadata (width, height, byte size;
`none` = open raises), the network upload outcome and the current time. -/
structure PubEnv where
  clientAvailable : Bool
  max_caption_length : Nat := 2200
  fileExists : String → Bool
  imageInfo : String → Option (Nat × Nat × Nat)
  uploadOutcome : Except String (String × String)
  now : Int

/-- Result dict of `_validate_post`. -/
structure Validation where
  is_valid : Bool
  errors : List String
deriving DecidableEq, Repr

/-- `InstagramPublisher._validate_post` (instagram_publisher.py lines
200-230): empty caption, caption over the configured limit, absent or
missing image file, and more than 30 `#`-prefixed hashtags each append an
itemized error and clear the valid flag. -/
def _validate_post (maxLen : Nat) (fileExists : String → Bool)
    (p : InstagramPost) : Validation :=
  let v : Validation := { is_valid := true, errors := [] }
  let v := if p.caption == "" || stripEmpty p.caption then
      { is_valid := false, errors := v.errors ++ ["Caption is empty"] } else v
  let v := if decide (maxLen < p.caption.length) then
      { is_valid := false, errors := v.errors ++ ["Caption too long"] } else v
  let v := if p.image_path == "" then
      { is_valid := false, errors := v.errors ++ ["No image provided"] }
    else if !fileExists p.image_path then
      { is_valid := false, errors := v.errors ++ ["Image file not found"] }
    else v
  let hashtag_count :=
    (((p.hashtags).getD []).filter (fun t => strStartsWith t "#")).length
  if decide (30 < hashtag_count) then
    { is_valid := false, errors := v.errors ++ ["Too many hashtags"] }
  else v

/-- `InstagramPublisher._prepare_media` (instagram_publisher.py lines
232-264): reject an absent/missing file, an unopenable image, one smaller
than 320×320, or one larger than 8 MiB; otherwise return the path. -/
def _prepare_media (env : PubEnv) (p : InstagramPost) : Option String :=
  if p.image_path == "" || !env.fileExists p.image_path then none
  else
    match env.imageInfo p.image_path with
    | none => none
    | some (w, h, size) =>
      if w < 320 || h < 320 then none
      else if 8 * 1024 * 1024 < size then none
      else some p.image_path

/-- `InstagramPublisher._upload_post` (instagram_publisher.py lines
266-292): the network upload, an oracle in this model. -/
def _upload_post (env : PubEnv) : Except String (String × String) :=
  env.uploadOutcome

/-- Failure branches of `publish_post`. -/
inductive PubError
  | clientUnavailable
  | postNotFound
  | validationFailed (errors : List String)
  | mediaFailed
  | uploadFailed (msg : String)
deriving DecidableEq, Repr

/-- Return dict of `publish_post`. -/
inductive PubResult
  | ok (instagram_id : String) (instagram_url : String) (media_code : String)
  | err (e : PubError)
deriving DecidableEq, Repr

/-- The caption override applied to the in-session ORM object
(`if caption_override: post.caption = caption_override`). -/
def applyOverride (p : InstagramPost) : Option String → InstagramPost
  | some c => if c == "" then p else { p with caption := c }
  | none => p

/-- The Published row committed on upload success (instagram_publisher.py
lines 167-178).  `instagram_id` takes `result.get('instagram_id')`; the
URL assignment reads `result.get('url')`, a key `_upload_post` never
returns (its key is `'instagram_url'`), so the committed `instagram_url`
is None. -/
def publishedRow (env : PubEnv) (post : InstagramPost)
    (iid : String) : InstagramPost :=
  { post with
    status := PostStatus.published,
    published_time := some env.now,
    instagram_id := some iid,
    instagram_url := none }

/-- `InstagramPublisher.publish_post` (instagram_publisher.py lines
130-198) over an explicit store: look the post up, apply any caption
override to the session object, validate, prepare media, upload; only the
success branch commits (mutations on failure die with the session), and
the returned trace records the steps in order. -/
def publish_post (env : PubEnv) (db : List InstagramPost) (pid : Nat)
    (caption_override : Option String) :
    PubResult × List InstagramPost × List PubStep :=
  if !env.clientAvailable then
    (PubResult.err PubError.clientUnavailable, db, [])
  else
    match db.find? (fun p => p.id == pid) with
    | none => (PubResult.err PubError.postNotFound, db, [PubStep.queryPost])
    | some post0 =>
      let post := applyOverride post0 caption_override
      let v := _validate_post env.max_caption_length env.fileExists post
      if !v.is_valid then
        (PubResult.err (PubError.validationFailed v.errors), db,
         [PubStep.queryPost, PubStep.validate])
      else
        match _prepare_media env post with
        | none =>
          (PubResult.err PubError.mediaFailed, db,
           [PubStep.queryPost, PubStep.validate, PubStep.prepareMedia])
        | some _ =>
          match _upload_post env with
          | Except.error msg =>
            (PubResult.err (PubError.uploadFailed msg), db,
             [PubStep.queryPost, PubStep.validate, PubStep.prepareMedia,
              PubStep.upload])
          | Except.ok (iid, code) =>
            (PubResult.ok iid ("https://www.instagram.com/p/" ++ code ++ "/") code,
             updateFirstPost db pid (fun _ => publishedRow env post iid),
             [PubStep.queryPost, PubStep.validate, PubStep.prepareMedia,
              PubStep.upload])

/-! ### Session acquisition — `connect` / `_setup_client`
(instagram_publisher.py lines 32-128) and
`InstagramAuthManager.authenticate` (instagram_auth_manager.py lines
126-170). -/

/-- Observable session-acquisition steps. -/
inductive ConnStep
  | accountInfo | loadSettings | relogin | deleteSession | login
  | dumpSettings | accountInfoVerify
deriving DecidableEq, Repr

/-- Oracles of `connect`: client construction, the outcome of each external
call in the chain. -/
structure ConnEnv where
  clientInitialized : Bool
  accountInfoOk : Bool
  sessionFileExists : Bool
  reloginOk : Bool
  credentialsConfigured : Bool
  loginOk : Bool
  accountInfoVerifyOk : Bool
deriving DecidableEq, Repr

/-- `InstagramPublisher._setup_client` (instagram_publisher.py lines
32-91): reuse a persisted session via `load_settings` + `relogin`,
deleting the blob when that fails; else fall back to a fresh credential
login, persisting it on success. -/
def _setup_client (env : ConnEnv) : Bool × List ConnStep :=
  if !env.clientInitialized then (false, [])
  else if env.sessionFileExists then
    if env.reloginOk then (true, [ConnStep.loadSettings, ConnStep.relogin])
    else
      let tr := [ConnStep.loadSettings, ConnStep.relogin, ConnStep.deleteSession]
      if env.credentialsConfigured then
        if env.loginOk then (true, tr ++ [ConnStep.login, ConnStep.dumpSettings])
        else (false, tr ++ [ConnStep.login])
      else (false, tr)
  else
    if env.credentialsConfigured then
      if env.loginOk then (true, [ConnStep.login, ConnStep.dumpSettings])
      else (false, [ConnStep.login])
    else (false, [])

/-- `InstagramPublisher.connect` (instagram_publisher.py lines 93-128):
a cheap `account_info` identity call first — success returns immediately —
else `_setup_client`, then a verification `account_info`. -/
def connect (env : ConnEnv) : Bool × List ConnStep :=
  if !env.clientInitialized then (false, [])
  else if env.accountInfoOk then (true, [ConnStep.accountInfo])
  else
    match _setup_client env with
    | (true, tr) =>
      (env.accountInfoVerifyOk,
       ConnStep.accountInfo :: tr ++ [ConnStep.accountInfoVerify])
    | (false, tr) => (false, ConnStep.accountInfo :: tr)

/-- Observable steps of `InstagramAuthManager.authenticate`. -/
inductive AuthStep
  | checkSession | freshLogin
deriving DecidableEq, Repr

/-- Oracles of the auth manager. -/
structure AuthEnv where
  instagrapiAvailable : Bool
  clientInitialized : Bool
  sessionFileExists : Bool
  sessionAgeDays : Nat
  sessionLoadOk : Bool
  accountMatchesUsername : Bool
  loginOk : Bool
deriving DecidableEq, Repr

/-- `InstagramAuthManager._is_session_valid` (instagram_auth_manager.py
lines 126-150): blob present, younger than 30 days, loadable, and the
cheap identity call returns the expected account. -/
def _is_session_valid (env : AuthEnv) : Bool :=
  env.sessionFileExists && decide (env.sessionAgeDays ≤ 30) &&
  env.sessionLoadOk && env.accountMatchesUsername

/-- `InstagramAuthManager.authenticate` (instagram_auth_manager.py lines
152-170): a valid persisted session wins immediately, else `_fresh_login`
(whose outcome is the `loginOk` oracle). -/
def authenticate (env : AuthEnv) : Bool × List AuthStep :=
  if !env.instagrapiAvailable then (false, [])
  else if !env.clientInitialized then (false, [])
  else if _is_session_valid env then (true, [AuthStep.checkSession])
  else (env.loginOk, [AuthStep.checkSession, AuthStep.freshLogin])

/-! ## Extraction cascade — src/scrapers/globalnews_scraper.py and
src/scrapers/universal_scraper.py

A parsed page is abstracted to the lists of `<p>` elements each CSS
selector of the cascade returns (`soup.select(selector)`), in the
selector order of the source; a `<p>` element keeps the attributes the
skip rules inspect and its stripped text. -/

/-- A `<p>` element as seen by the skip/validity rules. -/
structure PElem where
  classes : List String := []
  parentClasses : List String := []
  dataModule : Bool := false
  dataAd : Bool := false
  text : String
deriving DecidableEq, Repr

/-- `GlobalNewsScraper._should_skip_paragraph` (globalnews_scraper.py lines
104-122): exact class-token membership on the element and its parent. -/
def gn_skip_classes : List String :=
  ["advertisement", "ad", "social-share", "related-content", "author-bio"]

/-- Parent class tokens skipped by the Global News scraper. -/
def gn_skip_parent_classes : List String :=
  ["sidebar", "footer", "header", "navigation"]

/-- `GlobalNewsScraper._should_skip_paragraph`. -/
def gn_should_skip_paragraph (p : PElem) : Bool :=
  gn_skip_classes.any (fun c => p.classes.contains c) ||
  gn_skip_parent_classes.any (fun c => p.parentClasses.contains c)

/-- Blocklist phrases of `GlobalNewsScraper._is_valid_paragraph`
(globalnews_scraper.py lines 130-143), matched as substrings of the
lowercased text. -/
def gn_unwanted_phrases : List String :=
  ["advertisement", "subscribe to", "newsletter", "follow us",
   "share this story", "read more:", "watch:", "listen:", "click here",
   "sign up", "terms of service", "privacy policy"]

/-- `GlobalNewsScraper._is_valid_paragraph` (globalnews_scraper.py lines
124-154): at least 30 characters, no blocklist phrase, and at least 70%
alphabetic characters (`alpha_chars < len(text) * 0.7` rejects). -/
def gn_is_valid_paragraph (text : String) : Bool :=
  if text == "" || decide (text.length < 30) then false
  else if gn_unwanted_phrases.any (fun ph => strContains (strToLower text) ph) then
    false
  else if decide (10 * alphaCount text < 7 * text.length) then false
  else true

/-- Valid texts one Global News selector contributes: drop skipped
elements, keep texts passing `_is_valid_paragraph`. -/
def gn_valid_texts (ps : List PElem) : List String :=
  ((ps.filter (fun p => !gn_should_skip_paragraph p)).map (fun p => p.text)).filter
    gn_is_valid_paragraph

/-- `GlobalNewsScraper._extract_article_content` (globalnews_scraper.py
lines 70-102): walk the selector cascade; the first selector whose matched
paragraphs contribute at least one valid text wins (`if content_parts:
break`), and the winner's texts are space-joined. -/
def gn_extract_article_content : List (List PElem) → String
  | [] => ""
  | ps :: rest =>
    if ps.isEmpty then gn_extract_article_content rest
    else
      let parts := gn_valid_texts ps
      if parts.isEmpty then gn_extract_article_content rest
      else String.intercalate " " parts

/-! ### Universal scraper -/

/-- Class tokens of `_should_skip_paragraph_universal` (universal_scraper.py
lines 202-228), matched as substrings of the joined lowercased class
string. -/
def u_skip_classes : List String :=
  ["advertisement", "ad", "ads", "social", "share", "related",
   "sidebar", "footer", "header", "navigation", "nav", "menu",
   "author-bio", "bio", "byline", "caption", "credit",
   "tags", "category", "meta", "timestamp"]

/-- `UniversalScraper._should_skip_paragraph_universal`. -/
def u_should_skip_paragraph (p : PElem) : Bool :=
  (u_skip_classes.any (fun c =>
      strContains (strToLower (String.intercalate " " p.classes)) c)) ||
  (u_skip_classes.any (fun c =>
      strContains (strToLower (String.intercalate " " p.parentClasses)) c)) ||
  p.dataModule || p.dataAd

/-- Tokens of the unwanted-pattern regexes of
`UniversalScraper._is_valid_paragraph` (universal_scraper.py lines
236-252): literal runs, `\s+`, `\s*`, an optional trailing colon and
`\d\x7b4\x7d`. -/
inductive RTok
  | lit (s : List Char) | wsPlus | wsStar | optColon | digit4
deriving DecidableEq, Repr

/-- Match a token list at the head of a character list.  Whitespace
quantifiers are consumed greedily, which is equivalent to the regexes at
hand because each one is followedby a non-whitespace literal or ends the
pattern. -/
def matchToks : List RTok → List Char → Bool
  | [], _ => true
  | RTok.lit s :: ts, cs => charsPrefix s cs && matchToks ts (cs.drop s.length)
  | RTok.wsPlus :: ts, cs =>
    match cs with
    | [] => false
    | c :: rest => c.isWhitespace && matchToks ts (rest.dropWhile Char.isWhitespace)
  | RTok.wsStar :: ts, cs => matchToks ts (cs.dropWhile Char.isWhitespace)
  | RTok.optColon :: ts, cs =>
    match cs with
    | ':' :: rest => matchToks ts rest
    | _ => matchToks ts cs
  | RTok.digit4 :: ts, cs =>
    match cs with
    | a :: b :: c :: d :: rest =>
      a.isDigit && b.isDigit && c.isDigit && d.isDigit && matchToks ts rest
    | _ => false

/-- Python `re.search`: match the token list at any suffix. -/
def searchToks (ts : List RTok) : List Char → Bool
  | [] => matchToks ts []
  | c :: rest => matchToks ts (c :: rest) || searchToks ts rest

/-- The `unwanted_patterns` list of `UniversalScraper._is_valid_paragraph`
(universal_scraper.py lines 236-252), tokenized. -/
def u_unwanted_patterns : List (List RTok) :=
  [[RTok.lit "advertisement".toList],
   [RTok.lit "subscribe".toList, RTok.wsPlus, RTok.lit "to".toList],
   [RTok.lit "newsletter".toList],
   [RTok.lit "follow".toList, RTok.wsPlus, RTok.lit "us".toList],
   [RTok.lit "share".toList, RTok.wsPlus, RTok.lit "this".toList],
   [RTok.lit "read".toList, RTok.wsPlus, RTok.lit "more".toList, RTok.optColon],
   [RTok.lit "watch".toList, RTok.optColon],
   [RTok.lit "listen".toList, RTok.optColon],
   [RTok.lit "click".toList, RTok.wsPlus, RTok.lit "here".toList],
   [RTok.lit "sign".toList, RTok.wsPlus, RTok.lit "up".toList],
   [RTok.lit "terms".toList, RTok.wsPlus, RTok.lit "of".toList, RTok.wsPlus,
    RTok.lit "service".toList],
   [RTok.lit "privacy".toList, RTok.wsPlus, RTok.lit "policy".toList],
   [RTok.lit "cookie".toList, RTok.wsPlus, RTok.lit "policy".toList],
   [RTok.lit "©".toList, RTok.wsStar, RTok.digit4],
   [RTok.lit "all".toList, RTok.wsPlus, RTok.lit "rights".toList, RTok.wsPlus,
    RTok.lit "reserved".toList]]

/-- `UniversalScraper._is_valid_paragraph` (universal_scraper.py lines
230-268): at least 30 characters, no unwanted pattern in the lowercased
text, at least 8 words, and at least 60% alphabetic characters
(`alpha_chars < len(text) * 0.6` rejects). -/
def u_is_valid_paragraph (text : String) : Bool :=
  if text == "" || decide (text.length < 30) then false
  else if u_unwanted_patterns.any (fun ts => searchToks ts (strToLower text).toList) then
    false
  else if decide (wordCount text < 8) then false
  else if decide (10 * alphaCount text < 6 * text.length) then false
  else true

/-- Valid texts one universal selector contributes: drop skipped elements,
keep texts passing `_is_valid_paragraph`. -/
def u_valid_texts (ps : List PElem) : List String :=
  ((ps.filter (fun p => !u_should_skip_paragraph p)).map (fun p => p.text)).filter
    u_is_valid_paragraph

/-- The generic selector loop of `UniversalScraper._extract_content_universal`
(universal_scraper.py lines 184-200): the first selector whose matched
paragraphs contribute at least 3 valid texts wins
(`if len(temp_content) >= 3: break`). -/
def u_cascade : List (List PElem) → String
  | [] => ""
  | ps :: rest =>
    if ps.isEmpty then u_cascade rest
    else
      let temp := u_valid_texts ps
      if decide (3 ≤ temp.length) then String.intercalate " " temp
      else u_cascade rest

/-- A parsed page for the universal scraper: the configured-selector stage
result (when a content selector is configured) and the generic selector
results in source order. -/
structure UPage where
  configResult : Option (List PElem) := none
  selectorResults : List (List PElem) := []
deriving DecidableEq, Repr

/-- `UniversalScraper._extract_content_universal` (universal_scraper.py
lines 153-200): the configured selector wins with any nonempty set of
valid texts (no skip filter, no 3-paragraph floor); otherwise the generic
cascade runs. -/
def u_extract_content_universal (page : UPage) : String :=
  match page.configResult with
  | some elements =>
    if elements.isEmpty then u_cascade page.selectorResults
    else
      let parts := (elements.map (fun p => p.text)).filter u_is_valid_paragraph
      if parts.isEmpty then u_cascade page.selectorResults
      else String.intercalate " " parts
  | none => u_cascade page.selectorResults

/-! ## Spec-side predicates and concrete test fixtures -/

/-- The auto-selection eligibility of the spec, as worded: allow-listed
category, or an urgency keyword in the headline/body text, or a long
enough body together with an image. -/
def autoPostEligibleSpec (a : NewsArticle) : Prop :=
  (∃ c, a.category = some c ∧ c ∈ auto_post_categories) ∨
  (∃ k ∈ breaking_keywords,
    strContains (strToLower (a.headline ++ " " ++ a.content)) k = true) ∨
  (200 < wordCount a.content ∧ ∃ u, a.image_url = some u ∧ u ≠ "")

/-- A Published post stored with id 1. -/
def c1post : InstagramPost :=
  { id := 1, article_id := 1, caption := "cap", image_path := "img.jpg",
    published_time := some 100, status := PostStatus.published }

/-- A posting configuration whose daily cap is zero. -/
def c3cfg : PostingConfig := { max_posts_per_day := 0 }

/-- A fresh article payload. -/
def d0 : ArticleData :=
  { url := "https://example.com/story-1", source := "globalnews",
    headline := "Council approves transit plan", content := "Full body text." }

/-- An article that is allow-listed by category. -/
def a8 : NewsArticle :=
  { id := 1, url := "https://example.com/a8", source := "globalnews",
    headline := "Vote tonight", content := "The house sat late.",
    category := some "politics" }

/-- A stored article whose id is 5 (for the missing-id updates). -/
def a10 : NewsArticle :=
  { id := 5, url := "https://example.com/a10", source := "cbc",
    headline := "Headline", content := "Body.",
    status := ArticleStatus.processed }

/-- A valid single paragraph returned by the first Global News selector. -/
def gnP1 : PElem :=
  { text := "Milton council approved the new transit plan for the region today." }

/-- First of three valid paragraphs under the second selector. -/
def gnQ1 : PElem :=
  { text := "Officials said the first phase of construction begins early next spring." }

/-- Second of three valid paragraphs under the second selector. -/
def gnQ2 : PElem :=
  { text := "Residents at the meeting welcomed the plan after years of delays." }

/-- Third of three valid paragraphs under the second selector. -/
def gnQ3 : PElem :=
  { text := "The province will cover most of the projected construction costs." }

/-- A parsed Global News page: the first selector matches one valid
paragraph, the second matches three. -/
def c6page : List (List PElem) :=
  [[gnP1], [gnQ1, gnQ2, gnQ3], [], [], [], [], []]

/-- Publisher environment in which no image file exists. -/
def env4 : PubEnv :=
  { clientAvailable := true, fileExists := fun _ => false,
    imageInfo := fun _ => none, uploadOutcome := Except.error "err", now := 0 }

/-- A draft post with no image path. -/
def p4 : InstagramPost :=
  { id := 1, article_id := 1, caption := "hello", image_path := "" }

/-- Publisher environment in which media preparation succeeds and the
network upload fails. -/
def env9 : PubEnv :=
  { clientAvailable := true, fileExists := fun _ => true,
    imageInfo := fun _ => some (1080, 1080, 5000),
    uploadOutcome := Except.error "boom", now := 0 }

/-- A draft post whose caption and image pass validation. -/
def p9 : InstagramPost :=
  { id := 1, article_id := 1, caption := "hello world", image_path := "a.jpg" }

/-- Publisher environment in which media preparation succeeds and the
network upload returns media id "12345" with code "AbC". -/
def env9s : PubEnv :=
  { clientAvailable := true, fileExists := fun _ => true,
    imageInfo := fun _ => some (1080, 1080, 5000),
    uploadOutcome := Except.ok ("12345", "AbC"), now := 0 }

/-- The row the program commits for `p9` after that successful upload:
Published, external id stored, but `instagram_url` None. -/
def p9published : InstagramPost :=
  { p9 with
    status := PostStatus.published,
    published_time := some 0,
    instagram_id := some "12345",
    instagram_url := none }

/-- Connection environment with a valid already-loaded session. -/
def env5c : ConnEnv :=
  { clientInitialized := true, accountInfoOk := true, sessionFileExists := false,
    reloginOk := false, credentialsConfigured := true, loginOk := true,
    accountInfoVerifyOk := true }

/-- Auth-manager environment with a young, valid persisted session. -/
def env5a : AuthEnv :=
  { instagrapiAvailable := true, clientInitialized := true,
    sessionFileExists := true, sessionAgeDays := 5, sessionLoadOk := true,
    accountMatchesUsername := true, loginOk := false }

/-! ## Shared lemmas -/

/-- A lookup by id fails exactly on the stores holding no such id. -/
theorem find?_post_none (db : List InstagramPost) (pid : Nat)
    (h : ∀ p ∈ db, p.id ≠ pid) : db.find? (fun p => p.id == pid) = none :=
  List.find?_eq_none.mpr (by intro x hx; simpa using h x hx)

/-- Article variant of `find?_post_none`. -/
theorem find?_article_none (db : List NewsArticle) (aid : Nat)
    (h : ∀ a ∈ db, a.id ≠ aid) : db.find? (fun a => a.id == aid) = none :=
  List.find?_eq_none.mpr (by intro x hx; simpa using h x hx)

/-- `applyKwargs` never touches the primary key. -/
theorem applyKwargs_id (x : InstagramPost) (kw : PostKwargs) :
    (applyKwargs x kw).id = x.id := by
  rcases kw with ⟨s, e, g⟩
  cases s <;> cases e <;> cases g <;> rfl

/-- Replacing the first id-match commutes with the id lookup, provided the
replacement keeps the id. -/
theorem find?_updateFirstPost (db : List InstagramPost) (pid : Nat)
    (f : InstagramPost → InstagramPost) (hf : ∀ q, q.id = pid → (f q).id = pid) :
    (updateFirstPost db pid f).find? (fun q => q.id == pid) =
      (db.find? (fun q => q.id == pid)).map f := by
  induction db with
  | nil => rfl
  | cons p rest ih =>
    by_cases hp : p.id = pid
    · have hb : (p.id == pid) = true := by simpa using hp
      have hfb : ((f p).id == pid) = true := by simpa using hf p hp
      simp [updateFirstPost, hb, List.find?_cons, hfb]
    · have hb : (p.id == pid) = false := by simpa using hp
      simp [updateFirstPost, hb, List.find?_cons, ih]

/-! ## C10 — failed updates are no-ops -/

/-- C10: when no stored record carries the requested id,
`update_article_status` and `update_post_status` both return False and
leave every stored row untouched. -/
theorem update_missing_id_noop :
    ∀ (adb : List NewsArticle) (pdb : List InstagramPost) (aid pid : Nat)
      (ast : ArticleStatus) (pst : PostStatus) (notes : Option String)
      (kw : PostKwargs),
    (∀ a ∈ adb, a.id ≠ aid) → (∀ p ∈ pdb, p.id ≠ pid) →
    update_article_status adb aid ast notes = (false, adb) ∧
    update_post_status pdb pid pst kw = (false, pdb) := by
  intro adb pdb aid pid ast pst notes kw ha hp
  constructor
  · unfold update_article_status
    rw [find?_article_none adb aid ha]
  · unfold update_post_status
    rw [find?_post_none pdb pid hp]

/-- C10 witness: a store holding only id 5 rejects an update to id 1
without change. -/
theorem update_missing_id_noop_witness :
    update_article_status [a10] 1 ArticleStatus.published none = (false, [a10]) ∧
    update_post_status [c1post] 7 PostStatus.draft {} = (false, [c1post]) :=
  update_missing_id_noop [a10] [c1post] 1 7 ArticleStatus.published
    PostStatus.draft none {} (by decide) (by decide)

/-! ## C2 — save_article is idempotent on url -/

/-- C2: saving the same url twice stores exactly one article: the second
call returns the stored record and leaves the table unchanged. -/
theorem save_article_idempotent :
    ∀ (db : List NewsArticle) (d : ArticleData), (∀ a ∈ db, a.url ≠ d.url) →
    save_article (save_article db d).2 d =
      ((save_article db d).1, (save_article db d).2) ∧
    urlCount (save_article db d).2 d.url = 1 ∧
    ∃ a, (save_article db d).1 = some a ∧ a ∈ (save_article db d).2 ∧
      a.url = d.url := by
  intro db d h
  have hfind : db.find? (fun a => a.url == d.url) = none :=
    List.find?_eq_none.mpr (by intro x hx; simpa using h x hx)
  have hfilter : db.filter (fun a => a.url == d.url) = [] := by
    rw [List.filter_eq_nil_iff]; intro x hx; simpa using h x hx
  have h1 : save_article db d =
      (some (d.toRow (freshArticleId db)), db ++ [d.toRow (freshArticleId db)]) := by
    simp [save_article, hfind]
  have hurl : (d.toRow (freshArticleId db)).url = d.url := rfl
  have hfind2 : (db ++ [d.toRow (freshArticleId db)]).find?
      (fun a => a.url == d.url) = some (d.toRow (freshArticleId db)) := by
    rw [List.find?_append, hfind]; simp [hurl]
  refine ⟨?_, ?_, ?_⟩
  · rw [h1]; simp [save_article, hfind2]
  · rw [h1]; simp [urlCount, List.filter_append, hfilter, hurl]
  · exact ⟨d.toRow (freshArticleId db), by rw [h1], by rw [h1]; simp, hurl⟩

/-- C2 witness: saving the fixture payload twice into an empty store. -/
theorem save_article_idempotent_witness :
    save_article (save_article [] d0).2 d0 =
      ((save_article [] d0).1, (save_article [] d0).2) ∧
    urlCount (save_article [] d0).2 d0.url = 1 ∧
    ∃ a, (save_article [] d0).1 = some a ∧ a ∈ (save_article [] d0).2 ∧
      a.url = d0.url :=
  save_article_idempotent [] d0 (by intro a ha; cases ha)

/-! ## C1 — status monotonicity does not hold in the store -/

/-- C1 counterexample: a stored Published post is moved back to Draft by
`update_post_status` and back to Scheduled by `schedule_post`; neither
refuses the regression. -/
theorem publish_status_regression_cex :
    c1post.status = PostStatus.published ∧
    update_post_status [c1post] 1 PostStatus.draft {} =
      (true, [{ c1post with status := PostStatus.draft }]) ∧
    (schedule_post {} [c1post] 1 (some 600) 0).2 =
      [{ c1post with status := PostStatus.scheduled, scheduled_time := some 600 }] := by
  refine ⟨rfl, ?_, ?_⟩ <;> rfl

/-- C1 amended: `update_post_status` succeeds on any stored id and sets the
stored status to exactly the requested value regardless of the previous
one — including Published back to Draft — and `schedule_post` stores
Scheduled the same unconditional way; no monotonicity guard exists. -/
theorem update_post_status_unconditional :
    ∀ (db : List InstagramPost) (pid : Nat) (st : PostStatus) (kw : PostKwargs)
      (p : InstagramPost), db.find? (fun q => q.id == pid) = some p →
    (update_post_status db pid st kw).1 = true ∧
    (update_post_status db pid st kw).2.find? (fun q => q.id == pid) =
      some (applyKwargs { p with status := st } kw) ∧
    ∀ (cfg : PostingConfig) (t now : Int),
      (schedule_post cfg db pid (some t) now).2.find? (fun q => q.id == pid) =
        some { p with status := PostStatus.scheduled, scheduled_time := some t } := by
  intro db pid st kw p hfind
  have hupd : ∀ (st' : PostStatus) (kw' : PostKwargs),
      (update_post_status db pid st' kw').2.find? (fun q => q.id == pid) =
        some (applyKwargs { p with status := st' } kw') := by
    intro st' kw'
    unfold update_post_status
    rw [hfind]
    rw [find?_updateFirstPost db pid _ (by
      intro q hq
      rw [applyKwargs_id]
      exact hq)]
    rw [hfind]
    rfl
  refine ⟨?_, hupd st kw, ?_⟩
  · unfold update_post_status
    rw [hfind]
  · intro cfg t now
    exact hupd PostStatus.scheduled { scheduled_time := some t }

/-- C1 amended witness: the Published fixture post is overwritten to Draft
in a one-row store. -/
theorem update_post_status_unconditional_witness :
    (update_post_status [c1post] 1 PostStatus.draft {}).1 = true ∧
    (update_post_status [c1post] 1 PostStatus.draft {}).2.find?
      (fun q => q.id == 1) = some (applyKwargs { c1post with status := PostStatus.draft } {}) ∧
    ∀ (cfg : PostingConfig) (t now : Int),
      (schedule_post cfg [c1post] 1 (some t) now).2.find? (fun q => q.id == 1) =
        some { c1post with status := PostStatus.scheduled, scheduled_time := some t } :=
  update_post_status_unconditional [c1post] 1 PostStatus.draft {} c1post (by decide)

/-! ## C8 — auto-selection eligibility -/

/-- The if-chain of `_should_auto_post` collapses to the disjunction of
its three tests. -/
theorem should_auto_post_eq (a : NewsArticle) :
    _should_auto_post a =
      ((match a.category with
        | some c => auto_post_categories.contains c
        | none => false) ||
       breaking_keywords.any
         (fun k => strContains (strToLower (a.headline ++ " " ++ a.content)) k) ||
       (decide (200 < wordCount a.content) && optTruthy a.image_url)) := by
  simp only [_should_auto_post]
  rcases Bool.eq_false_or_eq_true (match a.category with
      | some c => auto_post_categories.contains c
      | none => false) with h1 | h1 <;>
  rcases Bool.eq_false_or_eq_true (breaking_keywords.any
      (fun k => strContains (strToLower (a.headline ++ " " ++ a.content)) k)) with h2 | h2 <;>
  rcases Bool.eq_false_or_eq_true
      (decide (200 < wordCount a.content) && optTruthy a.image_url) with h3 | h3 <;>
  simp only [h1, h2, h3] <;> simp

/-- C8: `_should_auto_post` returns True exactly when the article's
category is allow-listed, or its headline/body carries an urgency keyword,
or its body exceeds 200 words and it has an image URL; the ordered
first-match tests decide nothing beyond this disjunction. -/
theorem should_auto_post_iff :
    ∀ a : NewsArticle, _should_auto_post a = true ↔ autoPostEligibleSpec a := by
  intro a
  have himg : (optTruthy a.image_url = true) ↔
      ∃ u, a.image_url = some u ∧ u ≠ "" := by
    cases hu : a.image_url with
    | none => simp [optTruthy]
    | some u => simp [optTruthy]
  rw [should_auto_post_eq]
  unfold autoPostEligibleSpec
  rw [Bool.or_eq_true, Bool.or_eq_true, Bool.and_eq_true]
  constructor
  · rintro ((h1 | h2) | h3)
    · left
      cases hc : a.category with
      | none => rw [hc] at h1; cases h1
      | some c =>
        rw [hc] at h1
        exact ⟨c, rfl, by simpa using h1⟩
    · right; left
      exact List.any_eq_true.mp h2
    · right; right
      exact ⟨by simpa using h3.1, himg.mp h3.2⟩
  · rintro (⟨c, hc, hm⟩ | ⟨k, hk, hs⟩ | ⟨hw, hi⟩)
    · left; left
      rw [hc]
      simpa using hm
    · left; right
      exact List.any_eq_true.mpr ⟨k, hk, hs⟩
    · right
      exact ⟨by simpa using hw, himg.mpr hi⟩

/-- C8 witness: the fixture article with an allow-listed category. -/
theorem should_auto_post_iff_witness :
    _should_auto_post a8 = true ↔ autoPostEligibleSpec a8 :=
  should_auto_post_iff a8

/-! ## C5 — a valid session short-circuits the login chain -/

/-- C5: with an already-valid session, `connect` returns True after the
cheap identity call alone — no settings load, no relogin, no credential
login; a successful persisted-session stage likewise ends the chain before
credential login; and `authenticate` with a valid persisted session never
reaches `_fresh_login`. -/
theorem connect_valid_session_skips_login :
    (∀ env : ConnEnv, env.clientInitialized = true → env.accountInfoOk = true →
      connect env = (true, [ConnStep.accountInfo])) ∧
    (∀ env : ConnEnv, env.clientInitialized = true → env.accountInfoOk = false →
      env.sessionFileExists = true → env.reloginOk = true →
      connect env = (env.accountInfoVerifyOk,
        [ConnStep.accountInfo, ConnStep.loadSettings, ConnStep.relogin,
         ConnStep.accountInfoVerify]) ∧
      ConnStep.login ∉ (connect env).2) ∧
    (∀ env : AuthEnv, env.instagrapiAvailable = true →
      env.clientInitialized = true → _is_session_valid env = true →
      authenticate env = (true, [AuthStep.checkSession]) ∧
      AuthStep.freshLogin ∉ (authenticate env).2) := by
  refine ⟨?_, ?_, ?_⟩
  · intro env h1 h2
    simp [connect, h1, h2]
  · intro env h1 h2 h3 h4
    have hc : connect env = (env.accountInfoVerifyOk,
        [ConnStep.accountInfo, ConnStep.loadSettings, ConnStep.relogin,
         ConnStep.accountInfoVerify]) := by
      simp [connect, _setup_client, h1, h2, h3, h4]
    refine ⟨hc, ?_⟩
    rw [hc]
    show ConnStep.login ∉ [ConnStep.accountInfo, ConnStep.loadSettings,
      ConnStep.relogin, ConnStep.accountInfoVerify]
    decide
  · intro env h1 h2 h3
    have ha : authenticate env = (true, [AuthStep.checkSession]) := by
      simp [authenticate, h1, h2, h3]
    refine ⟨ha, ?_⟩
    rw [ha]
    show AuthStep.freshLogin ∉ [AuthStep.checkSession]
    decide

/-- C5 witness: concrete environments with a valid loaded session and a
valid persisted session. -/
theorem connect_valid_session_skips_login_witness :
    connect env5c = (true, [ConnStep.accountInfo]) ∧
    authenticate env5a = (true, [AuthStep.checkSession]) :=
  ⟨connect_valid_session_skips_login.1 env5c (by decide) (by decide),
   (connect_valid_session_skips_login.2.2 env5a (by decide) (by decide)
     (by decide)).1⟩

/-! ## C4 — validation precedes upload -/

/-- An oversize caption or an absent image makes `_validate_post` fail
with at least one itemized error. -/
theorem validate_post_flags (m : Nat) (fe : String → Bool) (p : InstagramPost)
    (h : m < p.caption.length ∨ p.image_path = "") :
    (_validate_post m fe p).is_valid = false ∧
    (_validate_post m fe p).errors ≠ [] := by
  rcases h with h | h
  · have hb : decide (m < p.caption.length) = true := by simpa using h
    simp only [_validate_post, hb]
    split_ifs <;> simp_all
  · simp only [_validate_post, h]
    split_ifs <;> simp_all

/-- `applyOverride` keeps the primary key. -/
theorem applyOverride_id (p : InstagramPost) (co : Option String) :
    (applyOverride p co).id = p.id := by
  cases co with
  | none => rfl
  | some c =>
    by_cases hc : c == ""
    · simp [applyOverride, hc]
    · simp [applyOverride, hc]

/-- C4: a post whose effective caption exceeds the configured maximum, or
whose image path is absent, is rejected by `publish_post` with a nonempty
itemized error list, its trace stopping at the validation step; and on
every path whatsoever the upload step can only appear after the
validation step, in the one full trace. -/
theorem publish_validates_before_upload :
    (∀ (env : PubEnv) (db : List InstagramPost) (pid : Nat) (co : Option String)
       (p : InstagramPost),
      env.clientAvailable = true →
      db.find? (fun q => q.id == pid) = some p →
      (env.max_caption_length < (applyOverride p co).caption.length ∨
        (applyOverride p co).image_path = "") →
      ∃ errs, (publish_post env db pid co).1 =
          PubResult.err (PubError.validationFailed errs) ∧ errs ≠ [] ∧
        (publish_post env db pid co).2.2 = [PubStep.queryPost, PubStep.validate]) ∧
    (∀ (env : PubEnv) (db : List InstagramPost) (pid : Nat) (co : Option String),
      PubStep.upload ∈ (publish_post env db pid co).2.2 →
      (publish_post env db pid co).2.2 =
        [PubStep.queryPost, PubStep.validate, PubStep.prepareMedia,
         PubStep.upload]) := by
  constructor
  · intro env db pid co p hcl hfind h
    obtain ⟨hv, he⟩ :=
      validate_post_flags env.max_caption_length env.fileExists (applyOverride p co) h
    refine ⟨(_validate_post env.max_caption_length env.fileExists
      (applyOverride p co)).errors, ?_, he, ?_⟩
    · simp [publish_post, hcl, hfind, hv]
    · simp [publish_post, hcl, hfind, hv]
  · intro env db pid co h
    by_cases hcl : env.clientAvailable = true
    · cases hfind : db.find? (fun q => q.id == pid) with
      | none => simp [publish_post, hcl, hfind] at h
      | some p =>
        rcases Bool.eq_false_or_eq_true (_validate_post env.max_caption_length
            env.fileExists (applyOverride p co)).is_valid with hv | hv
        · cases hm : _prepare_media env (applyOverride p co) with
          | none => simp [publish_post, hcl, hfind, hv, hm] at h
          | some mediaPath =>
            cases hu : env.uploadOutcome with
            | error msg => simp [publish_post, _upload_post, hcl, hfind, hv, hm, hu]
            | ok pr =>
              rcases pr with ⟨iid, code⟩
              simp [publish_post, _upload_post, hcl, hfind, hv, hm, hu]
        · simp [publish_post, hcl, hfind, hv] at h
    · have hcl' : env.clientAvailable = false := by simpa using hcl
      simp [publish_post, hcl'] at h

/-- C4 witness: the fixture post with no image path is rejected before the
upload step. -/
theorem publish_validates_before_upload_witness :
    ∃ errs, (publish_post env4 [p4] 1 none).1 =
        PubResult.err (PubError.validationFailed errs) ∧ errs ≠ [] ∧
      (publish_post env4 [p4] 1 none).2.2 = [PubStep.queryPost, PubStep.validate] :=
  publish_validates_before_upload.1 env4 [p4] 1 none p4 (by decide) (by decide)
    (Or.inr (by decide))

/-! ## C9 — failed publishes keep the store intact, but the success
commit drops the external URL -/

/-- C9: evaluating `publish_post` on the fixture store.  A failing upload
leaves the stored row untouched and retryable, as the claim says.  On a
successful upload, however, the committed row — though Published and
carrying the external id — has `instagram_url = none`: the commit reads
`result.get('url')` while `_upload_post` returns the URL only under the
`'instagram_url'` key, so the external URL the claim expects is never
persisted even though the returned dict carries it. -/
theorem publish_success_commits_no_url :
    (publish_post env9 [p9] 1 (some "new caption")).2.1 = [p9] ∧
    (publish_post env9s [p9] 1 none).1 =
      PubResult.ok "12345" "https://www.instagram.com/p/AbC/" "AbC" ∧
    (publish_post env9s [p9] 1 none).2.1 = [p9published] ∧
    p9published.instagram_url = none ∧
    p9published.status = PostStatus.published ∧
    p9published.instagram_id = some "12345" := by
  refine ⟨rfl, rfl, rfl, rfl, rfl, rfl⟩

/-- Every failing `publish_post` outcome leaves the stored posts exactly
as they were, and a success outcome occurs only with a successful upload,
which commits the Published row of `publishedRow`. -/
theorem publish_failure_restores_store :
    (∀ (env : PubEnv) (db : List InstagramPost) (pid : Nat) (co : Option String)
       (e : PubError), (publish_post env db pid co).1 = PubResult.err e →
      (publish_post env db pid co).2.1 = db) ∧
    (∀ (env : PubEnv) (db : List InstagramPost) (pid : Nat) (co : Option String)
       (iid url code : String),
      (publish_post env db pid co).1 = PubResult.ok iid url code →
      env.uploadOutcome = Except.ok (iid, code) ∧
      ∀ p, db.find? (fun q => q.id == pid) = some p →
        (publish_post env db pid co).2.1.find? (fun q => q.id == pid) =
          some (publishedRow env (applyOverride p co) iid)) := by
  constructor
  · intro env db pid co e h
    by_cases hcl : env.clientAvailable = true
    · cases hfind : db.find? (fun q => q.id == pid) with
      | none => simp [publish_post, hcl, hfind]
      | some p =>
        rcases Bool.eq_false_or_eq_true (_validate_post env.max_caption_length
            env.fileExists (applyOverride p co)).is_valid with hv | hv
        · cases hm : _prepare_media env (applyOverride p co) with
          | none => simp [publish_post, hcl, hfind, hv, hm]
          | some mediaPath =>
            cases hu : env.uploadOutcome with
            | error msg => simp [publish_post, _upload_post, hcl, hfind, hv, hm, hu]
            | ok pr =>
              rcases pr with ⟨iid, code⟩
              simp [publish_post, _upload_post, hcl, hfind, hv, hm, hu] at h
        · simp [publish_post, hcl, hfind, hv]
    · have hcl' : env.clientAvailable = false := by simpa using hcl
      simp [publish_post, hcl']
  · intro env db pid co iid url code h
    by_cases hcl : env.clientAvailable = true
    · cases hfind : db.find? (fun q => q.id == pid) with
      | none => simp [publish_post, hcl, hfind] at h
      | some p =>
        rcases Bool.eq_false_or_eq_true (_validate_post env.max_caption_length
            env.fileExists (applyOverride p co)).is_valid with hv | hv
        · cases hm : _prepare_media env (applyOverride p co) with
          | none => simp [publish_post, hcl, hfind, hv, hm] at h
          | some mediaPath =>
            cases hu : env.uploadOutcome with
            | error msg => simp [publish_post, _upload_post, hcl, hfind, hv, hm, hu] at h
            | ok pr =>
              rcases pr with ⟨iid0, code0⟩
              have hres : (publish_post env db pid co).1 =
                  PubResult.ok iid0 ("https://www.instagram.com/p/" ++ code0 ++ "/")
                    code0 := by
                simp [publish_post, _upload_post, hcl, hfind, hv, hm, hu]
              rw [hres] at h
              injection h with h1 h2 h3
              subst h1
              subst h3
              refine ⟨rfl, ?_⟩
              intro q hq
              cases hq
              have hid : p.id = pid := by
                have := List.find?_some hfind
                simpa using this
              have hsnd : (publish_post env db pid co).2.1 =
                  updateFirstPost db pid
                    (fun _ => publishedRow env (applyOverride p co) iid0) := by
                simp [publish_post, _upload_post, hcl, hfind, hv, hm, hu]
              rw [hsnd]
              rw [find?_updateFirstPost db pid _ (by
                intro q' hq'
                show (publishedRow env (applyOverride p co) iid0).id = pid
                simp [publishedRow, applyOverride_id, hid])]
              rw [hfind]
              rfl
        · simp [publish_post, hcl, hfind, hv] at h
    · have hcl' : env.clientAvailable = false := by simpa using hcl
      simp [publish_post, hcl'] at h

/-- C9 witness: an upload failure on a validating post leaves the one-row
store unchanged. -/
theorem publish_failure_restores_store_witness :
    (publish_post env9 [p9] 1 (some "new caption")).2.1 = [p9] :=
  publish_failure_restores_store.1 env9 [p9] 1 (some "new caption")
    (PubError.uploadFailed "boom") (by rfl)

/-! ## C3/C7 — slot-search lemmas -/

/-- A successful `findSome?` splits its list at the first hit. -/
theorem findSome?_eq_some_split {α β : Type} (l : List α) (f : α → Option β)
    (b : β) (h : l.findSome? f = some b) :
    ∃ l1 x l2, l = l1 ++ x :: l2 ∧ f x = some b ∧ ∀ y ∈ l1, f y = none := by
  induction l with
  | nil => cases h
  | cons a rest ih =>
    rw [List.findSome?_cons] at h
    cases hf : f a with
    | some c =>
      rw [hf] at h
      cases h
      exact ⟨[], a, rest, rfl, hf, by intro y hy; cases hy⟩
    | none =>
      rw [hf] at h
      obtain ⟨l1, x, l2, hsplit, hx, hnone⟩ := ih h
      refine ⟨a :: l1, x, l2, by rw [hsplit]; rfl, hx, ?_⟩
      intro y hy
      rcases List.mem_cons.mp hy with rfl | hy
      · exact hf
      · exact hnone y hy

/-- A successful hourly scan returns the first passing candidate hour. -/
theorem findHourly_some (cfg : PostingConfig) (db : List InstagramPost) :
    ∀ (fuel : Nat) (cur t : Int), findHourly cfg db fuel cur = some t →
    ∃ k : Nat, k < fuel ∧ t = cur + 60 * k ∧
      hourSlotOk cfg db t = true ∧
      ∀ j : Nat, j < k → hourSlotOk cfg db (cur + 60 * j) = false := by
  intro fuel
  induction fuel with
  | zero => intro cur t h; cases h
  | succ n ih =>
    intro cur t h
    unfold findHourly at h
    by_cases hg : hourSlotOk cfg db cur = true
    · rw [if_pos hg] at h
      cases h
      exact ⟨0, Nat.succ_pos n, by simp, hg, by intro j hj; omega⟩
    · rw [if_neg hg] at h
      obtain ⟨k, hk, ht, hpass, hfail⟩ := ih (cur + 60) t h
      refine ⟨k + 1, by omega, by rw [ht]; push_cast; ring, hpass, ?_⟩
      intro j hj
      cases j with
      | zero =>
        have : hourSlotOk cfg db cur = false := by
          revert hg; cases hourSlotOk cfg db cur <;> simp
        simpa using this
      | succ j' =>
        have hrec := hfail j' (by omega)
        have harith : cur + 60 * ((j' : Int) + 1) = cur + 60 + 60 * (j' : Int) := by
          ring
        rw [show ((j' + 1 : Nat) : Int) = (j' : Int) + 1 by push_cast; ring,
          harith]
        exact hrec

/-- A failed hourly scan rejected every candidate hour. -/
theorem findHourly_none (cfg : PostingConfig) (db : List InstagramPost) :
    ∀ (fuel : Nat) (cur : Int), findHourly cfg db fuel cur = none →
    ∀ k : Nat, k < fuel → hourSlotOk cfg db (cur + 60 * k) = false := by
  intro fuel
  induction fuel with
  | zero => intro cur _ k hk; omega
  | succ n ih =>
    intro cur h k hk
    unfold findHourly at h
    by_cases hg : hourSlotOk cfg db cur = true
    · rw [if_pos hg] at h; cases h
    · rw [if_neg hg] at h
      cases k with
      | zero =>
        have : hourSlotOk cfg db cur = false := by
          revert hg; cases hourSlotOk cfg db cur <;> simp
        simpa using this
      | succ j =>
        have hrec := ih (cur + 60) h j (by omega)
        have : cur + 60 * ((j : Int) + 1) = cur + 60 + 60 * (j : Int) := by ring
        rw [show ((j + 1 : Nat) : Int) = (j : Int) + 1 by push_cast; ring, this]
        exact hrec

/-- A passing slot meets both spec constraints. -/
theorem slot_ok_constraints (cfg : PostingConfig) (db : List InstagramPost)
    (t : Int) (hi : intervalOk cfg db t = true)
    (he : _exceeds_daily_limit cfg db (t / 1440) = false) :
    (∀ lp, _get_last_post_time db = some lp →
      (cfg.min_interval_hours : Int) * 60 ≤ t - lp) ∧
    publishedCountOn db (t / 1440) < cfg.max_posts_per_day := by
  constructor
  · intro lp hlp
    unfold intervalOk at hi
    rw [hlp] at hi
    simpa using hi
  · unfold _exceeds_daily_limit at he
    have := of_decide_eq_false he
    omega

/-! ## C3 — slots found by the search meet the constraints; the final
fallback does not -/

/-- C3 counterexample: with a zero daily cap every candidate fails, and
`get_next_posting_time` returns now+24h, which itself violates the daily
cap the claim asserts of every returned timestamp. -/
theorem next_posting_time_violates_caps_cex :
    get_next_posting_time c3cfg [] 0 = 1440 ∧
    ¬ publishedCountOn ([] : List InstagramPost) (1440 / 1440) <
        c3cfg.max_posts_per_day := by
  constructor
  · rfl
  · decide

/-- C3 amended: every timestamp produced by the preferred-times loop or by
the bounded hourly search satisfies both constraints — at least
`min_interval_hours` after the last Published post, and a day holding
fewer than `max_posts_per_day` Published posts; only the final now+24h
fallback (and the exception fallback) escapes them. -/
theorem slot_search_respects_constraints :
    ∀ (cfg : PostingConfig) (db : List InstagramPost) (now t : Int),
    (findPreferred cfg db now = some t ∨ findHourly cfg db (7 * 24) now = some t) →
    (∀ lp, _get_last_post_time db = some lp →
      (cfg.min_interval_hours : Int) * 60 ≤ t - lp) ∧
    publishedCountOn db (t / 1440) < cfg.max_posts_per_day := by
  intro cfg db now t h
  rcases h with h | h
  · obtain ⟨l1, hm, l2, _, hx, _⟩ :=
      findSome?_eq_some_split cfg.preferred_times _ t h
    by_cases hok : preferredSlotOk cfg db now hm = true
    · rw [if_pos hok] at hx
      cases hx
      rw [preferredSlotOk, Bool.and_eq_true] at hok
      obtain ⟨hi, he⟩ := hok
      have he' : _exceeds_daily_limit cfg db (preferredCandidate now hm / 1440)
          = false := by
        revert he; cases _exceeds_daily_limit cfg db
          (preferredCandidate now hm / 1440) <;> simp
      exact slot_ok_constraints cfg db _ hi he'
    · rw [if_neg hok] at hx
      cases hx
  · obtain ⟨k, _, ht, hpass, _⟩ := findHourly_some cfg db (7 * 24) now t h
    rw [hourSlotOk, Bool.and_eq_true] at hpass
    obtain ⟨he, hi⟩ := hpass
    have he' : _exceeds_daily_limit cfg db (t / 1440) = false := by
      revert he; cases _exceeds_daily_limit cfg db (t / 1440) <;> simp
    exact slot_ok_constraints cfg db t hi he'

/-- C3 amended witness: on an empty store at time 0, the preferred-times
loop returns 09:00 and both constraints hold there. -/
theorem slot_search_respects_constraints_witness :
    (∀ lp, _get_last_post_time ([] : List InstagramPost) = some lp →
      ((({} : PostingConfig).min_interval_hours : Int) * 60 ≤ 540 - lp)) ∧
    publishedCountOn ([] : List InstagramPost) (540 / 1440) <
      ({} : PostingConfig).max_posts_per_day :=
  slot_search_respects_constraints {} [] 0 540 (Or.inl (by rfl))

/-! ## C7 — search order and guaranteed termination -/

/-- C7: `get_next_posting_time` always returns, and its result is exactly
the first preferred candidate passing interval and cap checks, else the
first passing hour among the 7×24 hourly candidates, else now+24h when
every candidate failed. -/
theorem get_next_posting_time_search_order :
    ∀ (cfg : PostingConfig) (db : List InstagramPost) (now : Int),
    (∃ l1 hm l2, cfg.preferred_times = l1 ++ hm :: l2 ∧
      preferredSlotOk cfg db now hm = true ∧
      get_next_posting_time cfg db now = preferredCandidate now hm ∧
      ∀ hm' ∈ l1, preferredSlotOk cfg db now hm' = false) ∨
    ((∀ hm ∈ cfg.preferred_times, preferredSlotOk cfg db now hm = false) ∧
      ∃ k : Nat, k < 7 * 24 ∧
        get_next_posting_time cfg db now = now + 60 * k ∧
        hourSlotOk cfg db (now + 60 * k) = true ∧
        ∀ j : Nat, j < k → hourSlotOk cfg db (now + 60 * j) = false) ∨
    ((∀ hm ∈ cfg.preferred_times, preferredSlotOk cfg db now hm = false) ∧
      (∀ k : Nat, k < 7 * 24 → hourSlotOk cfg db (now + 60 * k) = false) ∧
      get_next_posting_time cfg db now = now + 1440) := by
  intro cfg db now
  cases hp : findPreferred cfg db now with
  | some t =>
    left
    obtain ⟨l1, hm, l2, hsplit, hx, hnone⟩ :=
      findSome?_eq_some_split cfg.preferred_times _ t hp
    by_cases hok : preferredSlotOk cfg db now hm = true
    · rw [if_pos hok] at hx
      cases hx
      refine ⟨l1, hm, l2, hsplit, hok, ?_, ?_⟩
      · unfold get_next_posting_time
        rw [hp]
      · intro hm' hmem
        have := hnone hm' hmem
        by_cases h' : preferredSlotOk cfg db now hm' = true
        · rw [if_pos h'] at this; cases this
        · revert h'; cases preferredSlotOk cfg db now hm' <;> simp
    · rw [if_neg hok] at hx
      cases hx
  | none =>
    have hallpref : ∀ hm ∈ cfg.preferred_times,
        preferredSlotOk cfg db now hm = false := by
      intro hm hmem
      have := List.findSome?_eq_none_iff.mp hp hm hmem
      by_cases h' : preferredSlotOk cfg db now hm = true
      · rw [if_pos h'] at this; cases this
      · revert h'; cases preferredSlotOk cfg db now hm <;> simp
    cases hh : findHourly cfg db (7 * 24) now with
    | some t =>
      right; left
      obtain ⟨k, hk, ht, hpass, hfail⟩ := findHourly_some cfg db (7 * 24) now t hh
      refine ⟨hallpref, k, hk, ?_, ht ▸ hpass, hfail⟩
      unfold get_next_posting_time _find_next_available_slot
      rw [hp, hh, ht]
    | none =>
      right; right
      refine ⟨hallpref, findHourly_none cfg db (7 * 24) now hh, ?_⟩
      unfold get_next_posting_time _find_next_available_slot
      rw [hp, hh]

/-- C7 witness: on an empty store at time 0 with the default configuration
the disjunction holds (the 09:00 preferred slot wins). -/
theorem get_next_posting_time_search_order_witness :
    (∃ l1 hm l2, ({} : PostingConfig).preferred_times = l1 ++ hm :: l2 ∧
      preferredSlotOk {} [] 0 hm = true ∧
      get_next_posting_time {} [] 0 = preferredCandidate 0 hm ∧
      ∀ hm' ∈ l1, preferredSlotOk {} [] 0 hm' = false) ∨
    ((∀ hm ∈ ({} : PostingConfig).preferred_times,
        preferredSlotOk {} [] 0 hm = false) ∧
      ∃ k : Nat, k < 7 * 24 ∧
        get_next_posting_time {} [] 0 = 0 + 60 * k ∧
        hourSlotOk {} [] (0 + 60 * k) = true ∧
        ∀ j : Nat, j < k → hourSlotOk {} [] (0 + 60 * j) = false) ∨
    ((∀ hm ∈ ({} : PostingConfig).preferred_times,
        preferredSlotOk {} [] 0 hm = false) ∧
      (∀ k : Nat, k < 7 * 24 → hourSlotOk {} [] (0 + 60 * k) = false) ∧
      get_next_posting_time {} [] 0 = 0 + 1440) :=
  get_next_posting_time_search_order {} [] 0

/-! ## C6 — which locator wins the extraction cascade -/

/-- C6 counterexample: on the fixture page, the Global News cascade stops
at the first selector although it contributes only one valid paragraph,
passing over a later selector holding three valid paragraphs — the claim
that every cascade requires at least 3 valid paragraphs to declare a
winner is false for this scraper. -/
theorem gn_cascade_one_paragraph_wins_cex :
    gn_extract_article_content c6page = gnP1.text ∧
    (gn_valid_texts [gnP1]).length = 1 ∧
    3 ≤ (gn_valid_texts [gnQ1, gnQ2, gnQ3]).length ∧
    gn_extract_article_content c6page ≠
      String.intercalate " " (gn_valid_texts [gnQ1, gnQ2, gnQ3]) := by
  refine ⟨?_, ?_, ?_, ?_⟩ <;> decide

/-- C6 amended: in the universal scraper's generic cascade the winning
locator is indeed the first yielding at least 3 valid paragraphs, every
earlier locator having fewer; but the Global News cascade (like the
universal scraper's configured-selector stage) accepts the first locator
yielding at least one valid paragraph; and validity does require ≥30
characters, the 60% (universal) / 70% (Global News) alphabetic ratio and
the absence of every blocklist phrase. -/
theorem extraction_cascade_first_winner :
    (∀ sels : List (List PElem), u_cascade sels ≠ "" →
      ∃ l1 s l2, sels = l1 ++ s :: l2 ∧ 3 ≤ (u_valid_texts s).length ∧
        u_cascade sels = String.intercalate " " (u_valid_texts s) ∧
        ∀ s' ∈ l1, (u_valid_texts s').length < 3) ∧
    (∀ sels : List (List PElem), gn_extract_article_content sels ≠ "" →
      ∃ l1 s l2, sels = l1 ++ s :: l2 ∧ gn_valid_texts s ≠ [] ∧
        gn_extract_article_content sels =
          String.intercalate " " (gn_valid_texts s) ∧
        ∀ s' ∈ l1, gn_valid_texts s' = []) ∧
    (∀ t, gn_is_valid_paragraph t = true →
      30 ≤ t.length ∧ 7 * t.length ≤ 10 * alphaCount t ∧
      ∀ ph ∈ gn_unwanted_phrases, strContains (strToLower t) ph = false) ∧
    (∀ t, u_is_valid_paragraph t = true →
      30 ≤ t.length ∧ 6 * t.length ≤ 10 * alphaCount t ∧
      ∀ ts ∈ u_unwanted_patterns, searchToks ts (strToLower t).toList = false) := by
  refine ⟨?_, ?_, ?_, ?_⟩
  · intro sels h
    induction sels with
    | nil => exact absurd rfl h
    | cons ps rest ih =>
      by_cases hemp : ps.isEmpty = true
      · have hps : ps = [] := List.isEmpty_iff.mp hemp
        have hcasc : u_cascade (ps :: rest) = u_cascade rest := by
          simp only [u_cascade]
          rw [if_pos hemp]
        rw [hcasc] at h
        obtain ⟨l1, s, l2, hsp, h3, hres, hfail⟩ := ih h
        refine ⟨ps :: l1, s, l2, by rw [hsp]; rfl, h3, by rw [hcasc]; exact hres, ?_⟩
        intro s' hs'
        rcases List.mem_cons.mp hs' with rfl | hs'
        · rw [hps]; decide
        · exact hfail s' hs'
      · by_cases h3 : decide (3 ≤ (u_valid_texts ps).length) = true
        · have hcasc : u_cascade (ps :: rest) =
              String.intercalate " " (u_valid_texts ps) := by
            simp only [u_cascade]
            rw [if_neg hemp, if_pos h3]
          exact ⟨[], ps, rest, rfl, by simpa using h3, hcasc,
            by intro s' hs'; cases hs'⟩
        · have hcasc : u_cascade (ps :: rest) = u_cascade rest := by
            simp only [u_cascade]
            rw [if_neg hemp, if_neg h3]
          rw [hcasc] at h
          obtain ⟨l1, s, l2, hsp, h3s, hres, hfail⟩ := ih h
          refine ⟨ps :: l1, s, l2, by rw [hsp]; rfl, h3s,
            by rw [hcasc]; exact hres, ?_⟩
          intro s' hs'
          rcases List.mem_cons.mp hs' with rfl | hs'
          · have : ¬ 3 ≤ (u_valid_texts s').length := by simpa using h3
            omega
          · exact hfail s' hs'
  · intro sels h
    induction sels with
    | nil => exact absurd rfl h
    | cons ps rest ih =>
      by_cases hemp : ps.isEmpty = true
      · have hps : ps = [] := List.isEmpty_iff.mp hemp
        have hcasc : gn_extract_article_content (ps :: rest) =
            gn_extract_article_content rest := by
          simp only [gn_extract_article_content]
          rw [if_pos hemp]
        rw [hcasc] at h
        obtain ⟨l1, s, l2, hsp, hne, hres, hfail⟩ := ih h
        refine ⟨ps :: l1, s, l2, by rw [hsp]; rfl, hne,
          by rw [hcasc]; exact hres, ?_⟩
        intro s' hs'
        rcases List.mem_cons.mp hs' with rfl | hs'
        · rw [hps]; decide
        · exact hfail s' hs'
      · by_cases hpe : (gn_valid_texts ps).isEmpty = true
        · have hcasc : gn_extract_article_content (ps :: rest) =
              gn_extract_article_content rest := by
            simp only [gn_extract_article_content]
            rw [if_neg hemp, if_pos hpe]
          rw [hcasc] at h
          obtain ⟨l1, s, l2, hsp, hne, hres, hfail⟩ := ih h
          refine ⟨ps :: l1, s, l2, by rw [hsp]; rfl, hne,
            by rw [hcasc]; exact hres, ?_⟩
          intro s' hs'
          rcases List.mem_cons.mp hs' with rfl | hs'
          · exact List.isEmpty_iff.mp hpe
          · exact hfail s' hs'
        · have hcasc : gn_extract_article_content (ps :: rest) =
              String.intercalate " " (gn_valid_texts ps) := by
            simp only [gn_extract_article_content]
            rw [if_neg hemp, if_neg hpe]
          refine ⟨[], ps, rest, rfl, ?_, hcasc, by intro s' hs'; cases hs'⟩
          intro hnil
          exact hpe (by rw [hnil]; rfl)
  · intro t h
    unfold gn_is_valid_paragraph at h
    split_ifs at h with h1 h2 h3
    have h1' : ¬(t = "" ∨ t.length < 30) := by simpa using h1
    have h3' : ¬(10 * alphaCount t < 7 * t.length) := by simpa using h3
    refine ⟨by omega, by omega, ?_⟩
    intro ph hmem
    by_cases hc : strContains (strToLower t) ph = true
    · exact absurd (List.any_eq_true.mpr ⟨ph, hmem, hc⟩) h2
    · revert hc; cases strContains (strToLower t) ph <;> simp
  · intro t h
    unfold u_is_valid_paragraph at h
    split_ifs at h with h1 h2 h3 h4
    have h1' : ¬(t = "" ∨ t.length < 30) := by simpa using h1
    have h4' : ¬(10 * alphaCount t < 6 * t.length) := by simpa using h4
    refine ⟨by omega, by omega, ?_⟩
    intro ts hmem
    by_cases hc : searchToks ts (strToLower t).toList = true
    · exact absurd (List.any_eq_true.mpr ⟨ts, hmem, hc⟩) h2
    · revert hc; cases searchToks ts (strToLower t).toList <;> simp

/-- C6 amended witness: on the fixture page the Global News characterization
instantiates — the first selector wins with its single valid paragraph. -/
theorem extraction_cascade_first_winner_witness :
    ∃ l1 s l2, c6page = l1 ++ s :: l2 ∧ gn_valid_texts s ≠ [] ∧
      gn_extract_article_content c6page =
        String.intercalate " " (gn_valid_texts s) ∧
      ∀ s' ∈ l1, gn_valid_texts s' = [] :=
  extraction_cascade_first_winner.2.1 c6page (by decide)

end NewsInstagram
